import Mathlib

/-
Verification of the Vector-Tools analytic-geometry library: a shallow
embedding of Vector3D (src/vector_tools/vector_3d.py), Line3D
(src/src/line_3d.py), Plane3D (src/src/plane_3d.py) and Utils3D
(src/vector_tools/utils_3d.py), with theorems about the embedded
operations.  Real scalars are modelled as rationals, so every equality
test in the source (which compares exactly, with no epsilon) is exact
here as well.  Numpy one-dimensional arrays are modelled as lists of
rationals; a shape tuple is a list of naturals.
-/

/-- Python runtime errors raised by the library: TypeError from the
arithmetic operators, ValueError (carrying the offending shape) from
Vector3D.from_numpy, AttributeError from reading a missing attribute,
and the two ArithmeticError subclasses of utils_3d. -/
inductive PyErr where
  | typeError
  | valueError (shape : List Nat)
  | attributeError
  | noSolutionError
  | infiniteSolutionError
deriving DecidableEq, Repr

/-- Vector3D: three real-valued components, from vector_3d.py. -/
structure Vector3D where
  x : ℚ
  y : ℚ
  z : ℚ
deriving DecidableEq, Repr

/-- The np_vec attribute computed by Vector3D.__init__:
np_array([self.x, self.y, self.z]), a one-dimensional array. -/
def Vector3D.np_vec (v : Vector3D) : List ℚ :=
  [v.x, v.y, v.z]

/-- Vector3D.from_numpy: if np_vec.shape == (3,), build the vector from
entries 0, 1, 2; else raise ValueError carrying the shape.  For a
one-dimensional array the shape is the one-element tuple of its length. -/
def Vector3D.from_numpy (np_vec : List ℚ) : Except PyErr Vector3D :=
  if np_vec.length = 3 then
    .ok ⟨np_vec.getD 0 0, np_vec.getD 1 0, np_vec.getD 2 0⟩
  else
    .error (.valueError [np_vec.length])

/-- Elementwise numpy addition of two one-dimensional arrays. -/
def npAdd (a b : List ℚ) : List ℚ :=
  List.zipWith (· + ·) a b

/-- Elementwise numpy subtraction of two one-dimensional arrays. -/
def npSub (a b : List ℚ) : List ℚ :=
  List.zipWith (· - ·) a b

/-- Elementwise numpy scaling of a one-dimensional array by a scalar. -/
def npScale (s : ℚ) (a : List ℚ) : List ℚ :=
  a.map (fun q => s * q)

/-- Elementwise numpy negation of a one-dimensional array. -/
def npNeg (a : List ℚ) : List ℚ :=
  a.map (fun q => -q)

/-- numpy cross product of two length-3 one-dimensional arrays.  Every
call site in the library passes np_vec arrays of Vector3D values, which
always have three entries, so the default branch is unreachable and its
value immaterial (numpy would raise there). -/
def npCross (u v : List ℚ) : List ℚ :=
  match u, v with
  | u0 :: u1 :: u2 :: _, v0 :: v1 :: v2 :: _ =>
      [u1 * v2 - u2 * v1, u2 * v0 - u0 * v2, u0 * v1 - u1 * v0]
  | _, _ => []

/-- Vector3D.__add__ restricted to Vector3D operands (the other branch
raises TypeError on non-Vector3D operands, outside this model):
Vector3D.from_numpy(self.np_vec + other.np_vec). -/
def Vector3D.add (u v : Vector3D) : Except PyErr Vector3D :=
  Vector3D.from_numpy (npAdd u.np_vec v.np_vec)

/-- Vector3D.__sub__ restricted to Vector3D operands:
Vector3D.from_numpy(self.np_vec - other.np_vec). -/
def Vector3D.sub (u v : Vector3D) : Except PyErr Vector3D :=
  Vector3D.from_numpy (npSub u.np_vec v.np_vec)

/-- A Python scalar operand as passed to Vector3D.__mul__: an int, a
float, or some non-numeric object. -/
inductive PyScalar where
  | int (n : ℤ)
  | float (q : ℚ)
  | nonNumeric
deriving DecidableEq, Repr

/-- Python isinstance(s, float): true exactly for float objects (a
Python int is not an instance of float). -/
def PyScalar.isFloat : PyScalar → Bool
  | .float _ => true
  | _ => false

/-- Numeric value of a scalar operand; 0 for a non-numeric object
(never used on that constructor: multiplication only reaches the value
after the isinstance check has succeeded). -/
def PyScalar.val : PyScalar → ℚ
  | .int n => (n : ℚ)
  | .float q => q
  | .nonNumeric => 0

/-- Vector3D.__mul__: the source guard reads
isinstance(s, float) or isinstance(s, float) — the float test written
twice, so an int operand fails the guard; on success it returns
Vector3D.from_numpy(s * self.np_vec), else raises TypeError. -/
def Vector3D.mul (v : Vector3D) (s : PyScalar) : Except PyErr Vector3D :=
  if s.isFloat || s.isFloat then
    Vector3D.from_numpy (npScale s.val v.np_vec)
  else
    .error .typeError

/-- Line3D: a parametric line, from line_3d.py.  The constructor stores
position and direction as given; it does not normalize the direction
(the docstring claims normalization but the body has no such step). -/
structure Line3D where
  position : Vector3D
  direction : Vector3D
deriving DecidableEq, Repr

/-- Snapshot self.a = direction.x from Line3D.__init__. -/
def Line3D.a (l : Line3D) : ℚ := l.direction.x

/-- Snapshot self.b = direction.y from Line3D.__init__. -/
def Line3D.b (l : Line3D) : ℚ := l.direction.y

/-- Snapshot self.c = direction.z from Line3D.__init__. -/
def Line3D.c (l : Line3D) : ℚ := l.direction.z

/-- Snapshot self.x0 = position.x from Line3D.__init__. -/
def Line3D.x0 (l : Line3D) : ℚ := l.position.x

/-- Snapshot self.y0 = position.y from Line3D.__init__. -/
def Line3D.y0 (l : Line3D) : ℚ := l.position.y

/-- Snapshot self.z0 = position.z from Line3D.__init__. -/
def Line3D.z0 (l : Line3D) : ℚ := l.position.z

/-- Line3D.x(t) = (t * self.a) + self.x0. -/
def Line3D.x (l : Line3D) (t : ℚ) : ℚ :=
  (t * l.a) + l.x0

/-- Line3D.y(t) = (t * self.b) + self.y0. -/
def Line3D.y (l : Line3D) (t : ℚ) : ℚ :=
  (t * l.b) + l.y0

/-- Line3D.z(t) = (t * self.c) + self.z0. -/
def Line3D.z (l : Line3D) (t : ℚ) : ℚ :=
  (t * l.c) + l.z0

/-- Line3D.pos(t) = Vector3D(self.x(t), self.y(t), self.z(t)). -/
def Line3D.pos (l : Line3D) (t : ℚ) : Vector3D :=
  ⟨l.x t, l.y t, l.z t⟩

/-- Plane3D: a plane in implicit form, from plane_3d.py.  The
constructor stores position and normal as given. -/
structure Plane3D where
  position : Vector3D
  normal : Vector3D
deriving DecidableEq, Repr

/-- Snapshot self.a = self.normal.x from Plane3D.__init__. -/
def Plane3D.a (p : Plane3D) : ℚ := p.normal.x

/-- Snapshot self.b = self.normal.y from Plane3D.__init__. -/
def Plane3D.b (p : Plane3D) : ℚ := p.normal.y

/-- Snapshot self.c = self.normal.z from Plane3D.__init__. -/
def Plane3D.c (p : Plane3D) : ℚ := p.normal.z

/-- Snapshot self.d = normal.x * position.x + normal.y * position.y +
normal.z * position.z from Plane3D.__init__. -/
def Plane3D.d (p : Plane3D) : ℚ :=
  (p.normal.x * p.position.x) + (p.normal.y * p.position.y) +
    (p.normal.z * p.position.z)

/-- Plane3D.x(y, z): ((normal.y * (y - position.y) + normal.z *
(z - position.z)) / (-1 * normal.x)) + position.x. -/
def Plane3D.x (p : Plane3D) (y z : ℚ) : ℚ :=
  (((p.normal.y * (y - p.position.y)) + (p.normal.z * (z - p.position.z))) /
      (-1 * p.normal.x)) + p.position.x

/-- Plane3D.y(x, z): analogous, dividing by -1 * normal.y. -/
def Plane3D.y (p : Plane3D) (x z : ℚ) : ℚ :=
  (((p.normal.x * (x - p.position.x)) + (p.normal.z * (z - p.position.z))) /
      (-1 * p.normal.y)) + p.position.y

/-- Plane3D.z(x, y): analogous, dividing by -1 * normal.z. -/
def Plane3D.z (p : Plane3D) (x y : ℚ) : ℚ :=
  (((p.normal.x * (x - p.position.x)) + (p.normal.y * (y - p.position.y))) /
      (-1 * p.normal.z)) + p.position.z

/-- Utils3D.cross: returns np_cross(a.np_vec, b.np_vec) — the raw numpy
array, which the source never wraps back into a Vector3D (its docstring
claims a Vector3D return). -/
def Utils3D.cross (a b : Vector3D) : List ℚ :=
  npCross a.np_vec b.np_vec

/-- A Python value in a Vector3D-typed position: either an actual
Vector3D or a raw numpy array (which has no x, y, z attributes). -/
inductive PyVec where
  | vec3d (v : Vector3D)
  | ndarray (a : List ℚ)
deriving DecidableEq, Repr

/-- Plane3D.__init__ under dynamic attribute lookup.  The body stores
position and normal, then reads normal.x, normal.y, normal.z (for a, b,
c) and position.x, position.y, position.z (inside d).  Reading x on a
raw numpy array raises AttributeError at the first such access. -/
def planeInitDyn : PyVec → PyVec → Except PyErr Plane3D
  | _, .ndarray _ =>
      -- the assignment self.a = self.normal.x raises
      .error .attributeError
  | .ndarray _, .vec3d _ =>
      -- computing self.d reads self.position.x, which raises
      .error .attributeError
  | .vec3d p, .vec3d n => .ok ⟨p, n⟩

/-- Plane3D.from_two_lines: cls(a.position, Utils3D.cross(a.direction,
b.direction)).  The position argument is a Vector3D; the normal argument
is the raw numpy array returned by Utils3D.cross. -/
def Plane3D.from_two_lines (a b : Line3D) : Except PyErr Plane3D :=
  planeInitDyn (.vec3d a.position) (.ndarray (Utils3D.cross a.direction b.direction))

/-- Utils3D.intersect_line_plane: compute t_term and const_term, then
either solve for t and return line.pos(t), or raise NoSolutionError or
InfiniteSolutionError.  The source writes the branches as
if t_term != 0 / elif t_term == 0 and d != const_term / elif t_term == 0
and d == const_term; the repeated t_term == 0 guards hold whenever those
branches are reached, and the implicit fall-through past the last elif
is unreachable, so the chain is an exhaustive three-way split. -/
def Utils3D.intersect_line_plane (line : Line3D) (plane : Plane3D) :
    Except PyErr Vector3D :=
  let t_term := (plane.a * line.a) + (plane.b * line.b) + (plane.c * line.c)
  let const_term := (plane.a * line.x0) + (plane.b * line.y0) + (plane.c * line.z0)
  if t_term ≠ 0 then
    .ok (line.pos ((plane.d - const_term) / t_term))
  else if plane.d ≠ const_term then
    .error .noSolutionError
  else
    .error .infiniteSolutionError

/-- C1: for every line and plane, intersect_line_plane raises
NoSolutionError iff t_term = plane.a*line.a + plane.b*line.b +
plane.c*line.c is 0 and plane.d differs from const_term =
plane.a*line.x0 + plane.b*line.y0 + plane.c*line.z0, and raises
InfiniteSolutionError iff t_term is 0 and plane.d equals const_term;
all comparisons exact. -/
theorem intersect_line_plane_error_classification
    (line : Line3D) (plane : Plane3D) :
    (Utils3D.intersect_line_plane line plane = .error .noSolutionError ↔
      (plane.a * line.a) + (plane.b * line.b) + (plane.c * line.c) = 0 ∧
        plane.d ≠ (plane.a * line.x0) + (plane.b * line.y0) + (plane.c * line.z0)) ∧
    (Utils3D.intersect_line_plane line plane = .error .infiniteSolutionError ↔
      (plane.a * line.a) + (plane.b * line.b) + (plane.c * line.c) = 0 ∧
        plane.d = (plane.a * line.x0) + (plane.b * line.y0) + (plane.c * line.z0)) := by
  unfold Utils3D.intersect_line_plane
  by_cases ht : (plane.a * line.a) + (plane.b * line.b) + (plane.c * line.c) = 0 <;>
    by_cases hd :
        plane.d = (plane.a * line.x0) + (plane.b * line.y0) + (plane.c * line.z0) <;>
    simp [ht, hd]

/-- C2: for every line and plane with t_term nonzero,
intersect_line_plane succeeds and returns line.pos(t) for
t = (plane.d - const_term) / t_term, and t is the unique parameter whose
point satisfies the implicit plane equation along the line. -/
theorem intersect_line_plane_unique_solution
    (line : Line3D) (plane : Plane3D)
    (h : (plane.a * line.a) + (plane.b * line.b) + (plane.c * line.c) ≠ 0) :
    Utils3D.intersect_line_plane line plane =
      .ok (line.pos
        ((plane.d - ((plane.a * line.x0) + (plane.b * line.y0) + (plane.c * line.z0))) /
          ((plane.a * line.a) + (plane.b * line.b) + (plane.c * line.c)))) ∧
    ∀ s : ℚ,
      plane.a * line.x s + plane.b * line.y s + plane.c * line.z s = plane.d ↔
        s = (plane.d - ((plane.a * line.x0) + (plane.b * line.y0) + (plane.c * line.z0))) /
          ((plane.a * line.a) + (plane.b * line.b) + (plane.c * line.c)) := by
  constructor
  · unfold Utils3D.intersect_line_plane
    simp [h]
  · intro s
    have hline : plane.a * line.x s + plane.b * line.y s + plane.c * line.z s =
        s * ((plane.a * line.a) + (plane.b * line.b) + (plane.c * line.c)) +
          ((plane.a * line.x0) + (plane.b * line.y0) + (plane.c * line.z0)) := by
      unfold Line3D.x Line3D.y Line3D.z
      ring
    rw [hline, eq_div_iff h]
    constructor
    · intro hs; linarith
    · intro hs; linarith

/-- Witness for C2 at the concrete line through the origin along the z
axis and the plane z = 5: t_term is 1 and the intersection is (0,0,5). -/
theorem intersect_line_plane_unique_solution_witness :
    ((Plane3D.a ⟨⟨0, 0, 5⟩, ⟨0, 0, 1⟩⟩ * Line3D.a ⟨⟨0, 0, 0⟩, ⟨0, 0, 1⟩⟩) +
      (Plane3D.b ⟨⟨0, 0, 5⟩, ⟨0, 0, 1⟩⟩ * Line3D.b ⟨⟨0, 0, 0⟩, ⟨0, 0, 1⟩⟩) +
      (Plane3D.c ⟨⟨0, 0, 5⟩, ⟨0, 0, 1⟩⟩ * Line3D.c ⟨⟨0, 0, 0⟩, ⟨0, 0, 1⟩⟩)) ≠ 0 ∧
    Utils3D.intersect_line_plane ⟨⟨0, 0, 0⟩, ⟨0, 0, 1⟩⟩ ⟨⟨0, 0, 5⟩, ⟨0, 0, 1⟩⟩ =
      .ok ⟨0, 0, 5⟩ :=
  ⟨by norm_num [Plane3D.a, Plane3D.b, Plane3D.c, Line3D.a, Line3D.b, Line3D.c],
    ((intersect_line_plane_unique_solution ⟨⟨0, 0, 0⟩, ⟨0, 0, 1⟩⟩ ⟨⟨0, 0, 5⟩, ⟨0, 0, 1⟩⟩
      (by norm_num [Plane3D.a, Plane3D.b, Plane3D.c, Line3D.a, Line3D.b,
        Line3D.c])).1).trans
      (by norm_num [Line3D.pos, Line3D.x, Line3D.y, Line3D.z, Line3D.a, Line3D.b,
        Line3D.c, Line3D.x0, Line3D.y0, Line3D.z0, Plane3D.a, Plane3D.b, Plane3D.c,
        Plane3D.d])⟩

/-- C3 (code evaluation): for every pair of lines, from_two_lines raises
AttributeError: Utils3D.cross hands Plane3D.__init__ a raw numpy array
as the normal, and the read of normal.x fails.  No well-formed Plane3D
is ever returned. -/
theorem from_two_lines_raises_attribute_error (l1 l2 : Line3D) :
    Plane3D.from_two_lines l1 l2 = .error .attributeError := rfl

/-- C4 (code evaluation): Utils3D.cross returns the raw numpy array —
modelled as a bare list, not a Vector3D — whose entries are exactly the
standard cross-product components. -/
theorem cross_returns_raw_array (u v : Vector3D) :
    Utils3D.cross u v =
      [u.y * v.z - u.z * v.y, u.z * v.x - u.x * v.z, u.x * v.y - u.y * v.x] := rfl

/-- C5 (code evaluation): for every vector and every Python int operand,
scalar multiplication raises TypeError, because the isinstance guard in
the source tests float twice and never int. -/
theorem mul_int_raises_type_error (v : Vector3D) (n : ℤ) :
    Vector3D.mul v (.int n) = .error .typeError := rfl

/-- C6: from_numpy on a numeric array returns Vector3D(arr[0], arr[1],
arr[2]) when the array has exactly 3 elements, and otherwise fails with
ValueError carrying the offending shape; it fails in no other case. -/
theorem from_numpy_shape_contract (arr : List ℚ) :
    (arr.length = 3 →
      Vector3D.from_numpy arr = .ok ⟨arr.getD 0 0, arr.getD 1 0, arr.getD 2 0⟩) ∧
    (arr.length ≠ 3 →
      Vector3D.from_numpy arr = .error (.valueError [arr.length])) := by
  constructor <;> intro h <;> simp [Vector3D.from_numpy, h]

/-- Witness for C6: a length-3 array yields the vector of its entries,
and a length-4 array yields ValueError carrying shape (4,). -/
theorem from_numpy_shape_contract_witness :
    Vector3D.from_numpy [1, 2, 3] = .ok ⟨1, 2, 3⟩ ∧
    Vector3D.from_numpy [1, 2, 3, 4] = .error (.valueError [4]) :=
  ⟨((from_numpy_shape_contract [1, 2, 3]).1 (by decide)).trans rfl,
    ((from_numpy_shape_contract [1, 2, 3, 4]).2 (by decide)).trans rfl⟩

/-- C7: for every line built from position and direction vectors and
every parameter t, pos(t) is (a*t + x0, b*t + y0, c*t + z0) with a, b, c
the raw, un-normalized direction components and x0, y0, z0 the position
components, and its coordinates agree with the scalar evaluators x(t),
y(t), z(t). -/
theorem pos_matches_scalar_evaluators (p d : Vector3D) (t : ℚ) :
    (Line3D.pos ⟨p, d⟩ t) =
      ⟨d.x * t + p.x, d.y * t + p.y, d.z * t + p.z⟩ ∧
    (Line3D.pos ⟨p, d⟩ t).x = Line3D.x ⟨p, d⟩ t ∧
    (Line3D.pos ⟨p, d⟩ t).y = Line3D.y ⟨p, d⟩ t ∧
    (Line3D.pos ⟨p, d⟩ t).z = Line3D.z ⟨p, d⟩ t := by
  refine ⟨?_, rfl, rfl, rfl⟩
  unfold Line3D.pos Line3D.x Line3D.y Line3D.z Line3D.a Line3D.b Line3D.c
    Line3D.x0 Line3D.y0 Line3D.z0
  simp only [Vector3D.mk.injEq]
  refine ⟨by ring, by ring, by ring⟩

/-- C8: for every plane whose coefficient a (normal x component) is
nonzero and all scalars y, z, the point (Plane3D.x(y, z), y, z)
satisfies the implicit equation a*x + b*y + c*z = d. -/
theorem solve_x_lies_on_plane (p : Plane3D) (y z : ℚ) (h : p.a ≠ 0) :
    p.a * p.x y z + p.b * y + p.c * z = p.d := by
  unfold Plane3D.a at h
  unfold Plane3D.x Plane3D.a Plane3D.b Plane3D.c Plane3D.d
  have h2 : (-1 : ℚ) * p.normal.x ≠ 0 := by simpa using h
  have hq := div_mul_cancel₀
    ((p.normal.y * (y - p.position.y)) + (p.normal.z * (z - p.position.z))) h2
  linear_combination -hq

/-- Witness for C8 at the plane through the origin with normal (1,0,0):
a = 1 is nonzero and the solved point satisfies the equation. -/
theorem solve_x_lies_on_plane_witness :
    Plane3D.a ⟨⟨0, 0, 0⟩, ⟨1, 0, 0⟩⟩ ≠ 0 ∧
    Plane3D.a ⟨⟨0, 0, 0⟩, ⟨1, 0, 0⟩⟩ * Plane3D.x ⟨⟨0, 0, 0⟩, ⟨1, 0, 0⟩⟩ 2 3 +
      Plane3D.b ⟨⟨0, 0, 0⟩, ⟨1, 0, 0⟩⟩ * 2 + Plane3D.c ⟨⟨0, 0, 0⟩, ⟨1, 0, 0⟩⟩ * 3 =
      Plane3D.d ⟨⟨0, 0, 0⟩, ⟨1, 0, 0⟩⟩ :=
  ⟨by norm_num [Plane3D.a],
    solve_x_lies_on_plane ⟨⟨0, 0, 0⟩, ⟨1, 0, 0⟩⟩ 2 3 (by norm_num [Plane3D.a])⟩

/-- C9: the cross product is anticommutative: cross(u, v) equals the
elementwise negation of cross(v, u). -/
theorem cross_anticommutative (u v : Vector3D) :
    Utils3D.cross u v = npNeg (Utils3D.cross v u) := by
  unfold Utils3D.cross npCross npNeg Vector3D.np_vec
  simp only [List.map_cons, List.map_nil, List.cons.injEq, and_true]
  refine ⟨by ring, by ring, by ring⟩

/-- C10: for every pair of Vector3D values, add and sub never fail with
ValueError: the intermediate arrays always have exactly 3 elements, so
the shape-check error branch of from_numpy is unreachable and a
Vector3D is always returned. -/
theorem add_sub_never_invalid_shape (u v : Vector3D) :
    (npAdd u.np_vec v.np_vec).length = 3 ∧
    (npSub u.np_vec v.np_vec).length = 3 ∧
    Vector3D.add u v = .ok ⟨u.x + v.x, u.y + v.y, u.z + v.z⟩ ∧
    Vector3D.sub u v = .ok ⟨u.x - v.x, u.y - v.y, u.z - v.z⟩ := by
  refine ⟨rfl, rfl, ?_, ?_⟩ <;>
    simp [Vector3D.add, Vector3D.sub, Vector3D.from_numpy, npAdd, npSub,
      Vector3D.np_vec]
